import Mathlib

/-!
Shallow embedding of the client-side request-lifecycle logic of the
business-website frontend:

* the conversation controller (`frontend/assets/js/chat-agent.js`):
  submit handler, form-disable guard, placeholder replacement, error catch;
* the order-status lookup renderer (the order-status script):
  trim guard, searching placeholder, defensive defaulting and formatting
  of the `OrderRecord` payload, error branches.

DOM state is modelled as explicit record fields (the chat window as a list
of messages, the results container as its rendered text); the single
`fetch` suspension point is modelled by a submit step that records the
outbound call and a resolve step fed with the response outcome.
-/

namespace BusinessSite

/-- JS template interpolation of a possibly-undefined value
(an absent property interpolates as the text `undefined`). -/
def jsTemplateOpt : Option String → String
  | none => "undefined"
  | some s => s

/-- JS `v || dflt` on an optional string: `undefined` and the empty
string are falsy, so both select the default. -/
def jsOrString : Option String → String → String
  | none, d => d
  | some s, d => if s = "" then d else s

/-- JS `Number.prototype.toFixed(2)` on exact rationals: round to the
nearest cent (half away from zero, matching JS on the exact values that
arise here) and print with exactly two decimal places; a negative input
keeps its sign. The cent count is `⌊|q| * 100 + 1/2⌋`, computed on the
reduced numerator and denominator. -/
def toFixed2 (q : ℚ) : String :=
  let cents : ℕ := (200 * q.num.natAbs + q.den) / (2 * q.den)
  let sign := if q < 0 then "-" else ""
  let frac := cents % 100
  sign ++ toString (cents / 100) ++ "." ++
    (if frac < 10 then "0" ++ toString frac else toString frac)

/-- Drop the leading whitespace characters of a character list. -/
def dropLeadingWs : List Char → List Char
  | [] => []
  | c :: cs => if c.isWhitespace then dropLeadingWs cs else c :: cs

/-- JS `String.prototype.trim`: strip leading and trailing whitespace. -/
def jsTrim (s : String) : String :=
  String.mk ((dropLeadingWs (dropLeadingWs s.data).reverse).reverse)

/-! ## Conversation controller (chat-agent.js) -/

/-- Message roles used by the conversation history. -/
inductive Role
  | user
  | assistant
deriving DecidableEq

/-- One entry of the conversation history or of the displayed chat window. -/
structure ChatMsg where
  role : Role
  content : String
deriving DecidableEq

/-- The controller state: the stored conversation history, the displayed
chat window (each appended paragraph as one entry), the input field, the
disabled flag and button label set by `setFormDisabled`, the console error
log, the number of outbound `fetch` calls issued, and whether a request is
currently in flight (its placeholder is the last window entry). -/
structure ChatState where
  conversationHistory : List ChatMsg
  chatWindow : List ChatMsg
  inputValue : String
  formDisabled : Bool
  buttonLabel : String
  consoleErrors : List String
  fetchCount : ℕ
  pending : Bool
deriving DecidableEq

/-- The initial greeting stored in `conversationHistory` at load time. -/
def greetingMsg : ChatMsg :=
  { role := Role.assistant, content := "Hello! How can I help you today?" }

/-- State after `DOMContentLoaded`: history holds exactly the greeting,
the window is empty, the form is enabled. -/
def chatInit : ChatState :=
  { conversationHistory := [greetingMsg]
    chatWindow := []
    inputValue := ""
    formDisabled := false
    buttonLabel := "Send"
    consoleErrors := []
    fetchCount := 0
    pending := false }

/-- `setFormDisabled(isDisabled)`: disables/enables input and button and
swaps the button label. -/
def setFormDisabled (s : ChatState) (isDisabled : Bool) : ChatState :=
  { s with formDisabled := isDisabled
           buttonLabel := if isDisabled then "Thinking..." else "Send" }

/-- `addMessageToWindow(sender, message)`: appends one paragraph to the
chat window. -/
def addMessageToWindow (s : ChatState) (sender : Role) (message : String) :
    ChatState :=
  { s with chatWindow := s.chatWindow ++ [{ role := sender, content := message }] }

/-- Replace the content of the last window entry in place (the code keeps
a reference to the placeholder paragraph and assigns its text; with one
request in flight that paragraph is the last appended entry). -/
def replaceLastContent (l : List ChatMsg) (content : String) : List ChatMsg :=
  match l.getLast? with
  | none => []
  | some last => l.dropLast ++ [{ last with content := content }]

/-- The chat submit handler up to (and including) issuing the `fetch`.
A disabled form cannot dispatch a submit event, so submission while
disabled is a no-op; empty/whitespace-only input returns before any
effect. Otherwise: display the user message, push it to the history,
clear the input, disable the form, append the `...` placeholder, and
issue exactly one outbound call. -/
def chatSubmit (s : ChatState) : ChatState :=
  if s.formDisabled then s
  else
    let userMessage := jsTrim s.inputValue
    if userMessage = "" then s
    else
      let s1 := addMessageToWindow s Role.user userMessage
      let s2 := { s1 with
        conversationHistory :=
          s1.conversationHistory ++ [{ role := Role.user, content := userMessage }]
        inputValue := "" }
      let s3 := setFormDisabled s2 true
      let s4 := addMessageToWindow s3 Role.assistant "..."
      { s4 with pending := true, fetchCount := s4.fetchCount + 1 }

/-- Outcome of the awaited round trip, as the handler observes it:
a 2xx response whose JSON body carries `reply`; a non-2xx response whose
JSON body may carry `detail`; or any thrown failure (network unreachable,
malformed response body). -/
inductive FetchOutcome
  | success (reply : String)
  | httpError (status : ℕ) (detail : Option String)
  | transportFailure
deriving DecidableEq

/-- Whether the outcome is one of the error outcomes. -/
def FetchOutcome.isError : FetchOutcome → Bool
  | .success _ => false
  | _ => true

/-- The `Error` message built on a non-2xx response:
`API Error: <status> - <detail or fallback>` (empty detail is falsy). -/
def apiErrorMessage (status : ℕ) (detail : Option String) : String :=
  "API Error: " ++ toString status ++ " - " ++ jsOrString detail "Unknown error"

/-- The text rendered into the placeholder by the catch branch (the
source assigns it wrapped in a styled paragraph via `innerHTML`). -/
def chatGenericError : String :=
  "Sorry, an error occurred. Please try again later."

/-- Resolution of the in-flight request: on success the placeholder text
becomes the reply; on any failure the thrown error is logged to the
console and the placeholder shows the fixed generic message. The
`finally` block re-enables the form either way. -/
def chatResolve (s : ChatState) (o : FetchOutcome) : ChatState :=
  if s.pending then
    let s1 :=
      match o with
      | .success reply =>
          { s with chatWindow := replaceLastContent s.chatWindow reply }
      | .httpError status detail =>
          { s with
            chatWindow := replaceLastContent s.chatWindow chatGenericError
            consoleErrors := s.consoleErrors ++ [apiErrorMessage status detail] }
      | .transportFailure =>
          { s with
            chatWindow := replaceLastContent s.chatWindow chatGenericError
            consoleErrors := s.consoleErrors ++ ["Failed to fetch"] }
    let s2 := setFormDisabled s1 false
    { s2 with pending := false }
  else s

/-- Events driving the controller: typing into the (enabled) input,
dispatching a submit, and the in-flight request resolving. -/
inductive ChatEvent
  | setInput (t : String)
  | submit
  | resolve (o : FetchOutcome)

/-- One controller step per event. -/
def chatStep (s : ChatState) : ChatEvent → ChatState
  | .setInput t => if s.formDisabled then s else { s with inputValue := t }
  | .submit => chatSubmit s
  | .resolve o => chatResolve s o

/-- States reachable from page load by controller events. -/
inductive ChatReachable : ChatState → Prop
  | init : ChatReachable chatInit
  | step {s : ChatState} (e : ChatEvent) :
      ChatReachable s → ChatReachable (chatStep s e)

/-! ## Order-status lookup renderer -/

/-- The `OrderRecord` payload of a successful lookup: customer name, four
optional ISO-8601 workflow dates, six optional currency amounts, the
balance (required by contract but possibly absent in a corrupted
payload), and an optional last-updated timestamp. Currency values are
modelled as exact rationals. -/
structure OrderRecord where
  customerName : String
  orderDate : Option String
  readyDate : Option String
  calledDate : Option String
  pickupDate : Option String
  mountPrice : Option ℚ
  boardPrice : Option ℚ
  depositCash : Option ℚ
  depositCheck : Option ℚ
  paymentCash : Option ℚ
  paymentCheck : Option ℚ
  balance : Option ℚ
  lastUpdatedAt : Option String

/-- The date/time formatters of the host locale, opaque to this code: each
models `new Date(s).toLocaleString()` resp. `.toLocaleDateString()`
applied to a date string. -/
structure Locale where
  toLocaleString : String → String
  toLocaleDateString : String → String

/-- `formatDateTime`: a falsy value (absent or empty string) renders as
`N/A`; otherwise the date-and-time formatting of the locale. -/
def formatDateTime (locale : Locale) (dateTimeString : Option String) : String :=
  match dateTimeString with
  | none => "N/A"
  | some s => if s = "" then "N/A" else locale.toLocaleString s

/-- `formatDate`: a falsy value renders as `Pending`; otherwise the part
before the first `T` is formatted via the date convention of the locale. -/
def formatDate (locale : Locale) (dateString : Option String) : String :=
  match dateString with
  | none => "Pending"
  | some s =>
      if s = "" then "Pending"
      else locale.toLocaleDateString ((s.splitOn "T").headD s)

/-- JS `v || 0` on an optional number (a present `0` is falsy and also
selects `0`, which coincides with `Option.getD 0` on rationals). -/
def jsOrZero (v : Option ℚ) : ℚ := v.getD 0

/-- The interpolated slots of the success template, in payload order:
each field is exactly the string spliced into the corresponding
`${...}` hole of the receipt markup. `summarize` is `none` when the
balance is absent, because `data.balance.toFixed(2)` then throws a
`TypeError` and the handler falls into its catch branch before any
markup is assigned. -/
structure RenderedSummary where
  customerName : String
  orderDateText : String
  readyDateText : String
  calledDateText : String
  pickupDateText : String
  mountPriceText : String
  boardPriceText : String
  totalCostText : String
  totalDepositText : String
  subsequentPaymentsText : String
  balanceText : String
  lastUpdatedText : String
deriving DecidableEq

/-- The success branch of the lookup handler: pre-computed totals with
`|| 0` defaulting, two-decimal formatting of every currency value, date
formatting via `formatDate`/`formatDateTime`, and the as-is balance. -/
def summarize (locale : Locale) (data : OrderRecord) : Option RenderedSummary :=
  match data.balance with
  | none => none
  | some b =>
      let totalCost := jsOrZero data.mountPrice + jsOrZero data.boardPrice
      let totalDeposit := jsOrZero data.depositCash + jsOrZero data.depositCheck
      let subsequentPayments := jsOrZero data.paymentCash + jsOrZero data.paymentCheck
      some
        { customerName := data.customerName
          orderDateText := formatDate locale data.orderDate
          readyDateText := formatDate locale data.readyDate
          calledDateText := formatDate locale data.calledDate
          pickupDateText := formatDate locale data.pickupDate
          mountPriceText := toFixed2 (jsOrZero data.mountPrice)
          boardPriceText := toFixed2 (jsOrZero data.boardPrice)
          totalCostText := toFixed2 totalCost
          totalDepositText := toFixed2 totalDeposit
          subsequentPaymentsText := toFixed2 subsequentPayments
          balanceText := toFixed2 b
          lastUpdatedText := formatDateTime locale data.lastUpdatedAt }

/-- The receipt markup of the success branch with the summary slots
spliced in (template whitespace normalized). -/
def renderSummaryHtml (r : RenderedSummary) : String :=
  "<div class=\"status-receipt\">" ++
  "<div class=\"receipt-header\">" ++
  "<h3>Order Status for " ++ r.customerName ++ "</h3>" ++
  "<div class=\"receipt-line\"><span><strong>Order Date: </strong></span><span>" ++
    r.orderDateText ++ "</span></div>" ++
  "<div class=\"receipt-line\"><span><strong>Ready for Pickup: </strong></span><span>" ++
    r.readyDateText ++ "</span></div>" ++
  "<div class=\"receipt-line\"><span><strong>Customer Called: </strong></span><span>" ++
    r.calledDateText ++ "</span></div>" ++
  "<div class=\"receipt-line\"><span><strong>Final Pickup: </strong></span><span>" ++
    r.pickupDateText ++ "</span></div>" ++
  "</div>" ++
  "<div class=\"receipt-section\">" ++
  "<h4> </h4><h4>---------Financial Summary---------</h4>" ++
  "<div class=\"receipt-line\"><span>Mount Price:</span><span> $" ++
    r.mountPriceText ++ "</span></div>" ++
  "<div class=\"receipt-line\"><span>Board Price:</span><span> $" ++
    r.boardPriceText ++ "</span></div>" ++
  "<div class=\"receipt-total\"><strong>Total Cost:</strong><strong> $" ++
    r.totalCostText ++ "</strong></div>" ++
  "<br>" ++
  "<div class=\"receipt-line\"><span>Initial Deposit:</span><span> - $" ++
    r.totalDepositText ++ "</span></div>" ++
  "<div class=\"receipt-line\"><span>Additional Payments:</span><span> - $" ++
    r.subsequentPaymentsText ++ "</span></div>" ++
  "</div>" ++
  "<div class=\"receipt-balance\"><h4> </h4><strong>Balance Due:</strong><strong>$" ++
    r.balanceText ++ "</strong></div>" ++
  "<div class=\"receipt-footer\">" ++
  "<h4>-----------------------------------------</h4>" ++
  "<h4>Thank you for your business!</h4>" ++
  "<h4>-----------------------------------------</h4>" ++
  "<p>Last Updated: " ++ r.lastUpdatedText ++ "</p>" ++
  "</div></div>"

/-- The success branch as the handler runs it: the full markup when the
balance is present, `none` (a thrown `TypeError`) when it is absent. -/
def renderOrderRecord (locale : Locale) (data : OrderRecord) : Option String :=
  (summarize locale data).map renderSummaryHtml

/-- State of the order-status feature: the input field, whether the
results container is shown, its rendered markup, the list of outbound
requests (each recorded by its trimmed query; URL-encoding is a builtin
applied on top and not modelled), and the total call count. -/
structure LookupState where
  nameInputValue : String
  resultsDisplayed : Bool
  resultsContainer : String
  requests : List String
  fetchCount : ℕ
deriving DecidableEq

/-- State at page load: container hidden and empty, nothing fetched. -/
def lookupInit : LookupState :=
  { nameInputValue := ""
    resultsDisplayed := false
    resultsContainer := ""
    requests := []
    fetchCount := 0 }

/-- The lookup submit handler up to (and including) issuing the `fetch`:
return with no effect on empty/whitespace-only input; otherwise show the
`Searching...` placeholder and issue exactly one request for the trimmed
query. The input field is never cleared. -/
def lookupSubmit (s : LookupState) : LookupState :=
  let customerName := jsTrim s.nameInputValue
  if customerName = "" then s
  else
    { s with
      resultsDisplayed := true
      resultsContainer := "<p>Searching...</p>"
      requests := s.requests ++ [customerName]
      fetchCount := s.fetchCount + 1 }

/-- Outcome of the awaited lookup round trip: a 2xx response parsed as an
`OrderRecord`; a non-2xx response whose JSON body may carry `detail`; or
any thrown failure (network unreachable, body that fails to parse). -/
inductive LookupOutcome
  | success (data : OrderRecord)
  | httpError (detail : Option String)
  | transportFailure

/-- Whether the lookup outcome is an error outcome; a payload with the
required balance absent counts as the missing-required-field error. -/
def LookupOutcome.isError : LookupOutcome → Bool
  | .success data => data.balance.isNone
  | _ => true

/-- The catch-branch markup for any thrown failure. -/
def lookupConnectError : String :=
  "<p style=\"color: red;\">Could not connect to the server. Please try again later.</p>"

/-- Resolution of a lookup round trip: a non-2xx response renders the
interpolated `detail` in a red paragraph; a success renders the receipt,
unless the missing balance throws, in which case — like any transport
failure — the catch branch renders the generic connect-error message. -/
def lookupResolve (locale : Locale) (s : LookupState) (o : LookupOutcome) :
    LookupState :=
  match o with
  | .httpError detail =>
      { s with resultsContainer :=
          "<p style=\"color: red;\">" ++ jsTemplateOpt detail ++ "</p>" }
  | .success data =>
      match renderOrderRecord locale data with
      | some html => { s with resultsContainer := html }
      | none => { s with resultsContainer := lookupConnectError }
  | .transportFailure => { s with resultsContainer := lookupConnectError }

/-- One full lookup round trip: submit followed by the resolution of the
request it issued (no concurrency guard exists on this form). -/
def lookupRun (locale : Locale) (s : LookupState) (o : LookupOutcome) :
    LookupState :=
  lookupResolve locale (lookupSubmit s) o

/-! ## Helper lemmas -/

/-- Submission while the form is disabled is a no-op: a disabled input and
button cannot dispatch a submit event. -/
theorem chatSubmit_of_disabled {s : ChatState} (h : s.formDisabled = true) :
    chatSubmit s = s := by
  simp [chatSubmit, h]

/-- Characterization of a successful submission from an enabled form with
non-blank input. -/
theorem chatSubmit_eq {s : ChatState} (h : s.formDisabled = false)
    (hm : jsTrim s.inputValue ≠ "") :
    chatSubmit s =
      { conversationHistory := s.conversationHistory ++
          [{ role := Role.user, content := jsTrim s.inputValue }]
        chatWindow := s.chatWindow ++
          [{ role := Role.user, content := jsTrim s.inputValue },
           { role := Role.assistant, content := "..." }]
        inputValue := ""
        formDisabled := true
        buttonLabel := "Thinking..."
        consoleErrors := s.consoleErrors
        fetchCount := s.fetchCount + 1
        pending := true } := by
  simp [chatSubmit, h, hm, addMessageToWindow, setFormDisabled]

/-- Resolution of an in-flight request re-enables the form, clears the
pending flag, issues no further call and leaves the history untouched. -/
theorem chatResolve_fields (s : ChatState) (o : FetchOutcome)
    (hp : s.pending = true) :
    (chatResolve s o).formDisabled = false ∧
    (chatResolve s o).pending = false ∧
    (chatResolve s o).fetchCount = s.fetchCount ∧
    (chatResolve s o).conversationHistory = s.conversationHistory := by
  cases o <;> simp [chatResolve, hp, setFormDisabled]

/-- `chatSubmit` either leaves the history unchanged or appends exactly
the trimmed user message. -/
theorem chatSubmit_history (s : ChatState) :
    (chatSubmit s).conversationHistory = s.conversationHistory ∨
    (chatSubmit s).conversationHistory = s.conversationHistory ++
      [{ role := Role.user, content := jsTrim s.inputValue }] := by
  by_cases hd : s.formDisabled
  · left; rw [chatSubmit_of_disabled hd]
  · by_cases hm : jsTrim s.inputValue = ""
    · left; simp [chatSubmit, hd, hm]
    · right
      rw [chatSubmit_eq (by simpa using hd) hm]

/-- `chatResolve` never touches the stored conversation history. -/
theorem chatResolve_history (s : ChatState) (o : FetchOutcome) :
    (chatResolve s o).conversationHistory = s.conversationHistory := by
  by_cases hp : s.pending
  · cases o <;> simp [chatResolve, hp, setFormDisabled]
  · simp [chatResolve, hp]

/-! ## Concrete fixtures for witnesses -/

/-- Controller state with `hi` typed into the enabled input. -/
def chatHi : ChatState := { chatInit with inputValue := "hi" }

/-- Controller state with whitespace-only input. -/
def chatBlank : ChatState := { chatInit with inputValue := "   " }

/-- Lookup state with a customer name typed in. -/
def lookupHi : LookupState := { lookupInit with nameInputValue := "Smith" }

/-- A locale whose formatters return a fixed marker string. -/
def constLocale : Locale :=
  { toLocaleString := fun _ => "X", toLocaleDateString := fun _ => "X" }

/-- An `OrderRecord` with every optional currency field absent and a
balance of 12.5. -/
def recNoCurrencies : OrderRecord :=
  { customerName := "Jane Doe"
    orderDate := none
    readyDate := some "2024-03-01T00:00:00"
    calledDate := none
    pickupDate := none
    mountPrice := none
    boardPrice := none
    depositCash := none
    depositCheck := none
    paymentCash := none
    paymentCheck := none
    balance := some (mkRat 25 2)
    lastUpdatedAt := none }

/-- An `OrderRecord` whose required balance is absent (a corrupted
payload). -/
def recNoBalance : OrderRecord :=
  { customerName := "Jane Doe"
    orderDate := none
    readyDate := none
    calledDate := none
    pickupDate := none
    mountPrice := some (mkRat 100 1)
    boardPrice := some (mkRat 50 1)
    depositCash := none
    depositCheck := none
    paymentCash := none
    paymentCheck := none
    balance := none
    lastUpdatedAt := none }

/-! ## Claims -/

/-- C1: at most one request per controller instance is in flight at any
time. A submit from an idle state disables the form, marks the request
in flight and issues exactly one outbound call; while disabled, any
number of further submit attempts leave the state (and hence the call
count) unchanged. -/
theorem C1_single_in_flight (s : ChatState) (h : s.formDisabled = false)
    (hm : jsTrim s.inputValue ≠ "") :
    (chatSubmit s).formDisabled = true ∧
    (chatSubmit s).pending = true ∧
    (chatSubmit s).fetchCount = s.fetchCount + 1 ∧
    ∀ n : ℕ, chatSubmit^[n] (chatSubmit s) = chatSubmit s := by
  have he := chatSubmit_eq h hm
  refine ⟨by rw [he], by rw [he], by rw [he], ?_⟩
  intro n
  induction n with
  | zero => rfl
  | succ n ih =>
      rw [Function.iterate_succ_apply', ih, chatSubmit_of_disabled (by rw [he])]

/-- C1 witness: the idle-guard property at the concrete state with `hi`
typed in. -/
theorem C1_single_in_flight_witness :
    (chatSubmit chatHi).formDisabled = true ∧
    (chatSubmit chatHi).pending = true ∧
    (chatSubmit chatHi).fetchCount = chatHi.fetchCount + 1 ∧
    ∀ n : ℕ, chatSubmit^[n] (chatSubmit chatHi) = chatSubmit chatHi :=
  C1_single_in_flight chatHi (by decide) (by decide)

/-- C6: empty or whitespace-only input (after trimming) makes submit and
lookup a complete no-op — state unchanged, zero outbound calls, no error
shown — while non-blank input issues exactly one outbound call per
invocation. -/
theorem C6_trim_guard :
    (∀ s : ChatState, s.formDisabled = false →
      (jsTrim s.inputValue = "" → chatSubmit s = s) ∧
      (jsTrim s.inputValue ≠ "" →
        (chatSubmit s).fetchCount = s.fetchCount + 1)) ∧
    ∀ s : LookupState,
      (jsTrim s.nameInputValue = "" → lookupSubmit s = s) ∧
      (jsTrim s.nameInputValue ≠ "" →
        (lookupSubmit s).fetchCount = s.fetchCount + 1 ∧
        (lookupSubmit s).requests = s.requests ++ [jsTrim s.nameInputValue]) := by
  constructor
  · intro s hd
    refine ⟨fun he => by simp [chatSubmit, hd, he], fun hne => ?_⟩
    rw [chatSubmit_eq hd hne]
  · intro s
    exact ⟨fun he => by simp [lookupSubmit, he],
      fun hne => by simp [lookupSubmit, hne]⟩

/-- C6 witness: blank input is a no-op and `hi`/`Smith` each issue one
call, at concrete states. -/
theorem C6_trim_guard_witness :
    chatSubmit chatBlank = chatBlank ∧
    (chatSubmit chatHi).fetchCount = chatHi.fetchCount + 1 ∧
    lookupSubmit lookupInit = lookupInit ∧
    (lookupSubmit lookupHi).fetchCount = lookupHi.fetchCount + 1 ∧
    (lookupSubmit lookupHi).requests =
      lookupHi.requests ++ [jsTrim lookupHi.nameInputValue] :=
  ⟨(C6_trim_guard.1 chatBlank (by decide)).1 (by decide),
   (C6_trim_guard.1 chatHi (by decide)).2 (by decide),
   (C6_trim_guard.2 lookupInit).1 (by decide),
   ((C6_trim_guard.2 lookupHi).2 (by decide)).1,
   ((C6_trim_guard.2 lookupHi).2 (by decide)).2⟩

/-- C7: every error resolution leaves the component ready for a new
attempt: the chat form is re-enabled with nothing pending, and typing a
non-blank input and submitting again immediately issues the next call;
the lookup form likewise accepts the next lookup immediately. -/
theorem C7_errors_not_fatal :
    (∀ (s : ChatState) (o : FetchOutcome), s.pending = true →
      o.isError = true →
      (chatResolve s o).formDisabled = false ∧
      (chatResolve s o).pending = false ∧
      ∀ t, jsTrim t ≠ "" →
        (chatSubmit { chatResolve s o with inputValue := t }).fetchCount
          = (chatResolve s o).fetchCount + 1) ∧
    ∀ (locale : Locale) (s : LookupState) (o : LookupOutcome),
      o.isError = true →
      ∀ t, jsTrim t ≠ "" →
        (lookupSubmit { lookupResolve locale s o with nameInputValue := t }).fetchCount
          = (lookupResolve locale s o).fetchCount + 1 := by
  constructor
  · intro s o hp _
    obtain ⟨hd, hpend, _, _⟩ := chatResolve_fields s o hp
    refine ⟨hd, hpend, fun t ht => ?_⟩
    rw [chatSubmit_eq (by simpa using hd) (by simpa using ht)]
  · intro locale s o _ t ht
    simp [lookupSubmit, ht]

/-- C7 witness: after a concrete 500-with-detail failure both components
immediately accept and issue the next request. -/
theorem C7_errors_not_fatal_witness :
    ((chatResolve (chatSubmit chatHi) (FetchOutcome.httpError 500 (some "boom"))).formDisabled
        = false ∧
      (chatResolve (chatSubmit chatHi) (FetchOutcome.httpError 500 (some "boom"))).pending
        = false ∧
      ∀ t, jsTrim t ≠ "" →
        (chatSubmit { chatResolve (chatSubmit chatHi)
            (FetchOutcome.httpError 500 (some "boom")) with inputValue := t }).fetchCount
          = (chatResolve (chatSubmit chatHi)
              (FetchOutcome.httpError 500 (some "boom"))).fetchCount + 1) ∧
    ∀ t, jsTrim t ≠ "" →
      (lookupSubmit { lookupResolve constLocale lookupHi
          (LookupOutcome.httpError (some "boom")) with nameInputValue := t }).fetchCount
        = (lookupResolve constLocale lookupHi
            (LookupOutcome.httpError (some "boom"))).fetchCount + 1 :=
  ⟨C7_errors_not_fatal.1 (chatSubmit chatHi)
      (FetchOutcome.httpError 500 (some "boom")) (by decide) (by decide),
   C7_errors_not_fatal.2 constLocale lookupHi
      (LookupOutcome.httpError (some "boom")) (by decide)⟩

/-- C9: a failed round trip does not roll back the history append made
at submit time — after submitting non-blank input and any error
resolution, the stored history still ends with that user message. -/
theorem C9_history_survives_error (s : ChatState) (o : FetchOutcome)
    (hd : s.formDisabled = false) (hm : jsTrim s.inputValue ≠ "")
    (_he : o.isError = true) :
    (chatResolve (chatSubmit s) o).conversationHistory =
      s.conversationHistory ++
        [{ role := Role.user, content := jsTrim s.inputValue }] := by
  rw [chatResolve_history, chatSubmit_eq hd hm]

/-- C9 witness: after `hi` fails with a 500, the history still ends with
the user message `hi`. -/
theorem C9_history_survives_error_witness :
    (chatResolve (chatSubmit chatHi)
        (FetchOutcome.httpError 500 (some "boom"))).conversationHistory =
      chatHi.conversationHistory ++
        [{ role := Role.user, content := jsTrim chatHi.inputValue }] :=
  C9_history_survives_error chatHi (FetchOutcome.httpError 500 (some "boom"))
    (by decide) (by decide) (by decide)

/-- C10: the stored history starts as exactly the assistant greeting, and
in every reachable state it is the greeting followed only by user-role
entries — successful replies go to the display window, never into the
stored history. -/
theorem C10_history_greeting_then_users :
    chatInit.conversationHistory = [greetingMsg] ∧
    greetingMsg.role = Role.assistant ∧
    ∀ s, ChatReachable s →
      ∃ rest, s.conversationHistory = greetingMsg :: rest ∧
        ∀ m ∈ rest, m.role = Role.user := by
  refine ⟨rfl, rfl, ?_⟩
  intro s h
  induction h with
  | init => exact ⟨[], rfl, by simp⟩
  | @step s e h ih =>
      obtain ⟨rest, hr, hu⟩ := ih
      cases e with
      | setInput t =>
          by_cases hd : s.formDisabled <;>
            exact ⟨rest, by simpa [chatStep, hd] using hr, hu⟩
      | submit =>
          rcases chatSubmit_history s with hs | hs
          · exact ⟨rest, by simpa [chatStep, hs] using hr, hu⟩
          · refine ⟨rest ++ [{ role := Role.user, content := jsTrim s.inputValue }],
              ?_, ?_⟩
            · simp [chatStep, hs, hr]
            · intro m hm
              rcases List.mem_append.mp hm with h1 | h1
              · exact hu m h1
              · simp at h1; simp [h1]
      | resolve o =>
          exact ⟨rest, by simpa [chatStep, chatResolve_history] using hr, hu⟩

/-- C10 witness: the invariant at the concrete reachable state after
typing `hi`, submitting, and receiving a successful reply. -/
theorem C10_history_greeting_then_users_witness :
    ∃ rest,
      (chatStep (chatStep (chatStep chatInit (ChatEvent.setInput "hi"))
          ChatEvent.submit)
          (ChatEvent.resolve (FetchOutcome.success "Hello there"))).conversationHistory
        = greetingMsg :: rest ∧
      ∀ m ∈ rest, m.role = Role.user :=
  C10_history_greeting_then_users.2.2 _
    (ChatReachable.step (ChatEvent.resolve (FetchOutcome.success "Hello there"))
      (ChatReachable.step ChatEvent.submit
        (ChatReachable.step (ChatEvent.setInput "hi") ChatReachable.init)))

/-- C2 counterexample: a 404 carrying the detail `Not found` resolves
with the conversation controller rendering the fixed generic message,
not the detail text — the claim as stated fails for the
ConversationController. -/
theorem C2_counterexample :
    (chatResolve (chatSubmit chatHi)
        (FetchOutcome.httpError 404 (some "Not found"))).chatWindow =
      [{ role := Role.user, content := "hi" },
       { role := Role.assistant, content := chatGenericError }] ∧
    chatGenericError ≠ "Not found" := by
  decide

/-- C2 (amended): the LookupRenderer renders a non-2xx `detail` string
verbatim inline; the ConversationController instead always renders the
fixed generic message on failure, the server detail reaching only the
console error log inside the thrown API-error message (and the
LookupRenderer interpolates a missing detail as the text `undefined`,
with no generic fallback). -/
theorem C2_detail_surfacing (locale : Locale) (ls : LookupState)
    (cs : ChatState) (hp : cs.pending = true) :
    (∀ d : String,
      (lookupResolve locale ls (LookupOutcome.httpError (some d))).resultsContainer
        = "<p style=\"color: red;\">" ++ d ++ "</p>") ∧
    ((lookupResolve locale ls (LookupOutcome.httpError none)).resultsContainer
        = "<p style=\"color: red;\">undefined</p>") ∧
    ∀ (status : ℕ) (detail : Option String),
      (chatResolve cs (FetchOutcome.httpError status detail)).chatWindow
        = replaceLastContent cs.chatWindow chatGenericError ∧
      (chatResolve cs (FetchOutcome.httpError status detail)).consoleErrors
        = cs.consoleErrors ++ [apiErrorMessage status detail] := by
  refine ⟨fun d => by simp [lookupResolve, jsTemplateOpt], ?_, ?_⟩
  · simp [lookupResolve, jsTemplateOpt]
  · intro status detail
    constructor <;> simp [chatResolve, hp, setFormDisabled]

/-- C2 witness: the amended behaviour at a concrete in-flight chat state
and a concrete lookup state. -/
theorem C2_detail_surfacing_witness :
    (∀ d : String,
      (lookupResolve constLocale lookupHi
          (LookupOutcome.httpError (some d))).resultsContainer
        = "<p style=\"color: red;\">" ++ d ++ "</p>") ∧
    ((lookupResolve constLocale lookupHi
        (LookupOutcome.httpError none)).resultsContainer
      = "<p style=\"color: red;\">undefined</p>") ∧
    ∀ (status : ℕ) (detail : Option String),
      (chatResolve (chatSubmit chatHi)
          (FetchOutcome.httpError status detail)).chatWindow
        = replaceLastContent (chatSubmit chatHi).chatWindow chatGenericError ∧
      (chatResolve (chatSubmit chatHi)
          (FetchOutcome.httpError status detail)).consoleErrors
        = (chatSubmit chatHi).consoleErrors ++ [apiErrorMessage status detail] :=
  C2_detail_surfacing constLocale lookupHi (chatSubmit chatHi) (by decide)

/-- Dates of a payload that meets the §3 data model: each date field is
an ISO-8601 date string (in particular non-empty) or absent. -/
def WellFormedDates (d : OrderRecord) : Prop :=
  d.orderDate ≠ some "" ∧ d.readyDate ≠ some "" ∧ d.calledDate ≠ some "" ∧
  d.pickupDate ≠ some "" ∧ d.lastUpdatedAt ≠ some ""

/-- For a locale whose date formatting never yields the literal label
`Pending`, `formatDate` produces `Pending` exactly on an absent
(non-empty-string) field. -/
theorem formatDate_pending_iff (locale : Locale) (v : Option String)
    (hP : ∀ x, locale.toLocaleDateString x ≠ "Pending") (hv : v ≠ some "") :
    formatDate locale v = "Pending" ↔ v = none := by
  cases v with
  | none => simp [formatDate]
  | some s =>
      by_cases hs : s = ""
      · exact absurd (by rw [hs]) hv
      · simp [formatDate, hs, hP]

/-- For a locale whose date-time formatting never yields `N/A`,
`formatDateTime` produces `N/A` exactly on an absent field. -/
theorem formatDateTime_na_iff (locale : Locale) (v : Option String)
    (hN : ∀ x, locale.toLocaleString x ≠ "N/A") (hv : v ≠ some "") :
    formatDateTime locale v = "N/A" ↔ v = none := by
  cases v with
  | none => simp [formatDateTime]
  | some s =>
      by_cases hs : s = ""
      · exact absurd (by rw [hs]) hv
      · simp [formatDateTime, hs, hN]

/-- C3: an absent balance aborts the success rendering (the direct
`toFixed` access throws) and the catch branch shows the connect-error
message — the balance is neither defaulted to zero nor shown as `$NaN`;
a present balance is displayed as the payload value itself formatted to
two decimals, not derived from the other currency fields. -/
theorem C3_balance_required (locale : Locale) (s : LookupState)
    (d : OrderRecord) :
    (d.balance = none →
      renderOrderRecord locale d = none ∧
      (lookupResolve locale s (LookupOutcome.success d)).resultsContainer
        = lookupConnectError) ∧
    ∀ b, d.balance = some b → ∀ r, summarize locale d = some r →
      r.balanceText = toFixed2 b := by
  constructor
  · intro hb
    have h1 : renderOrderRecord locale d = none := by
      simp [renderOrderRecord, summarize, hb]
    exact ⟨h1, by simp [lookupResolve, h1]⟩
  · intro b hb r hr
    simp [summarize, hb] at hr
    rw [← hr]

/-- C3 witness: the corrupted no-balance payload renders the error
branch, and the balance-12.5 payload displays its own balance. -/
theorem C3_balance_required_witness :
    (renderOrderRecord constLocale recNoBalance = none ∧
      (lookupResolve constLocale lookupHi
          (LookupOutcome.success recNoBalance)).resultsContainer
        = lookupConnectError) ∧
    ∃ r, summarize constLocale recNoCurrencies = some r ∧
      r.balanceText = toFixed2 (mkRat 25 2) :=
  ⟨(C3_balance_required constLocale lookupHi recNoBalance).1 rfl,
   ⟨_, rfl, (C3_balance_required constLocale lookupHi recNoCurrencies).2
      (mkRat 25 2) rfl _ rfl⟩⟩

/-- C4: each displayed total is the sum of its two payload fields with
absent values defaulted to zero, formatted to two decimals; with every
optional currency field absent and balance 12.5 the totals display as
`0.00` and the balance as `12.50`. -/
theorem C4_currency_defaulting (locale : Locale) (d : OrderRecord) :
    (∀ r, summarize locale d = some r →
      r.totalCostText = toFixed2 (jsOrZero d.mountPrice + jsOrZero d.boardPrice) ∧
      r.totalDepositText = toFixed2 (jsOrZero d.depositCash + jsOrZero d.depositCheck) ∧
      r.subsequentPaymentsText
        = toFixed2 (jsOrZero d.paymentCash + jsOrZero d.paymentCheck)) ∧
    (d.mountPrice = none → d.boardPrice = none → d.depositCash = none →
      d.depositCheck = none → d.paymentCash = none → d.paymentCheck = none →
      d.balance = some (25 / 2 : ℚ) →
      ∀ r, summarize locale d = some r →
        r.totalCostText = "0.00" ∧ r.totalDepositText = "0.00" ∧
        r.subsequentPaymentsText = "0.00" ∧ r.balanceText = "12.50") := by
  have law : ∀ r, summarize locale d = some r →
      r.totalCostText = toFixed2 (jsOrZero d.mountPrice + jsOrZero d.boardPrice) ∧
      r.totalDepositText = toFixed2 (jsOrZero d.depositCash + jsOrZero d.depositCheck) ∧
      r.subsequentPaymentsText
        = toFixed2 (jsOrZero d.paymentCash + jsOrZero d.paymentCheck) ∧
      ∀ b, d.balance = some b → r.balanceText = toFixed2 b := by
    intro r hr
    cases hb : d.balance with
    | none => simp [summarize, hb] at hr
    | some b =>
        simp [summarize, hb] at hr
        rw [← hr]
        refine ⟨rfl, rfl, rfl, ?_⟩
        intro b2 hb2
        cases hb2
        rfl
  refine ⟨fun r hr => ⟨(law r hr).1, (law r hr).2.1, (law r hr).2.2.1⟩, ?_⟩
  intro h1 h2 h3 h4 h5 h6 hb r hr
  have h00 : toFixed2 (jsOrZero none + jsOrZero none) = "0.00" := by
    simp only [jsOrZero, Option.getD_none, add_zero]
    decide
  have h125 : toFixed2 (25 / 2 : ℚ) = "12.50" := by
    rw [show (25 / 2 : ℚ) = mkRat 25 2 by norm_num [Rat.mkRat_eq_div]]
    decide
  obtain ⟨hc, hd2, hp, hbal⟩ := law r hr
  refine ⟨?_, ?_, ?_, ?_⟩
  · rw [hc, h1, h2, h00]
  · rw [hd2, h3, h4, h00]
  · rw [hp, h5, h6, h00]
  · rw [hbal (25 / 2 : ℚ) hb, h125]

/-- C4 witness: the defaulting law evaluated on the concrete record with
all currency fields absent and balance 12.5. -/
theorem C4_currency_defaulting_witness :
    ∃ r, summarize constLocale recNoCurrencies = some r ∧
      r.totalCostText = "0.00" ∧ r.totalDepositText = "0.00" ∧
      r.subsequentPaymentsText = "0.00" ∧ r.balanceText = "12.50" :=
  ⟨_, rfl, (C4_currency_defaulting constLocale recNoCurrencies).2
    rfl rfl rfl rfl rfl rfl
    (by norm_num [recNoCurrencies, Rat.mkRat_eq_div]) _ rfl⟩

/-- C5: each of the four workflow date slots is a function of its own
field alone, rendering the literal label `Pending` exactly when that
field is absent, and the last-updated slot renders `N/A` exactly when
the timestamp is absent — for payloads meeting the §3 date model and a
locale whose formatting never collides with the two labels. -/
theorem C5_date_defaulting (locale : Locale) (d : OrderRecord)
    (hP : ∀ x, locale.toLocaleDateString x ≠ "Pending")
    (hN : ∀ x, locale.toLocaleString x ≠ "N/A")
    (hwf : WellFormedDates d) :
    ∀ r, summarize locale d = some r →
      (r.orderDateText = formatDate locale d.orderDate ∧
       r.readyDateText = formatDate locale d.readyDate ∧
       r.calledDateText = formatDate locale d.calledDate ∧
       r.pickupDateText = formatDate locale d.pickupDate ∧
       r.lastUpdatedText = formatDateTime locale d.lastUpdatedAt) ∧
      (r.orderDateText = "Pending" ↔ d.orderDate = none) ∧
      (r.readyDateText = "Pending" ↔ d.readyDate = none) ∧
      (r.calledDateText = "Pending" ↔ d.calledDate = none) ∧
      (r.pickupDateText = "Pending" ↔ d.pickupDate = none) ∧
      (r.lastUpdatedText = "N/A" ↔ d.lastUpdatedAt = none) := by
  intro r hr
  obtain ⟨w1, w2, w3, w4, w5⟩ := hwf
  cases hb : d.balance with
  | none => simp [summarize, hb] at hr
  | some b =>
      simp [summarize, hb] at hr
      rw [← hr]
      refine ⟨⟨rfl, rfl, rfl, rfl, rfl⟩, ?_, ?_, ?_, ?_, ?_⟩
      · exact formatDate_pending_iff locale d.orderDate hP w1
      · exact formatDate_pending_iff locale d.readyDate hP w2
      · exact formatDate_pending_iff locale d.calledDate hP w3
      · exact formatDate_pending_iff locale d.pickupDate hP w4
      · exact formatDateTime_na_iff locale d.lastUpdatedAt hN w5

/-- C5 witness: the date defaulting at the concrete record whose
ready-date is present and whose other dates and timestamp are absent. -/
theorem C5_date_defaulting_witness :
    ∃ r, summarize constLocale recNoCurrencies = some r ∧
      ((r.orderDateText = formatDate constLocale recNoCurrencies.orderDate ∧
        r.readyDateText = formatDate constLocale recNoCurrencies.readyDate ∧
        r.calledDateText = formatDate constLocale recNoCurrencies.calledDate ∧
        r.pickupDateText = formatDate constLocale recNoCurrencies.pickupDate ∧
        r.lastUpdatedText = formatDateTime constLocale recNoCurrencies.lastUpdatedAt) ∧
       (r.orderDateText = "Pending" ↔ recNoCurrencies.orderDate = none) ∧
       (r.readyDateText = "Pending" ↔ recNoCurrencies.readyDate = none) ∧
       (r.calledDateText = "Pending" ↔ recNoCurrencies.calledDate = none) ∧
       (r.pickupDateText = "Pending" ↔ recNoCurrencies.pickupDate = none) ∧
       (r.lastUpdatedText = "N/A" ↔ recNoCurrencies.lastUpdatedAt = none)) :=
  ⟨_, rfl, C5_date_defaulting constLocale recNoCurrencies
    (fun _ h => (by decide : ("X" : String) ≠ "Pending") h)
    (fun _ h => (by decide : ("X" : String) ≠ "N/A") h)
    ⟨by decide, by decide, by decide, by decide, by decide⟩ _ rfl⟩

/-- A full successful lookup run: the container afterwards is a function
of the locale and payload alone, the typed query is untouched, and the
call count increases by exactly one. -/
theorem lookupRun_success (locale : Locale) (s : LookupState)
    (d : OrderRecord) (hq : jsTrim s.nameInputValue ≠ "") :
    (lookupRun locale s (LookupOutcome.success d)).resultsContainer
      = (renderOrderRecord locale d).getD lookupConnectError ∧
    (lookupRun locale s (LookupOutcome.success d)).nameInputValue
      = s.nameInputValue ∧
    (lookupRun locale s (LookupOutcome.success d)).fetchCount
      = s.fetchCount + 1 := by
  unfold lookupRun
  cases hrd : renderOrderRecord locale d <;>
    simp [lookupSubmit, lookupResolve, hq, hrd]

/-- C8: lookups are idempotent and uncached — a successful lookup
renders output fully determined by the locale and payload, an identical
second lookup renders byte-identical output, and each of the two
invocations issues its own fetch. -/
theorem C8_lookup_idempotent (locale : Locale) (s : LookupState)
    (d : OrderRecord) (hq : jsTrim s.nameInputValue ≠ "") :
    (lookupRun locale s (LookupOutcome.success d)).resultsContainer
      = (renderOrderRecord locale d).getD lookupConnectError ∧
    (lookupRun locale (lookupRun locale s (LookupOutcome.success d))
        (LookupOutcome.success d)).resultsContainer
      = (lookupRun locale s (LookupOutcome.success d)).resultsContainer ∧
    (lookupRun locale (lookupRun locale s (LookupOutcome.success d))
        (LookupOutcome.success d)).fetchCount = s.fetchCount + 2 := by
  obtain ⟨h1, hn, hf⟩ := lookupRun_success locale s d hq
  have hq2 : jsTrim (lookupRun locale s
      (LookupOutcome.success d)).nameInputValue ≠ "" := by
    rw [hn]; exact hq
  obtain ⟨h2, _, hf2⟩ :=
    lookupRun_success locale (lookupRun locale s (LookupOutcome.success d)) d hq2
  exact ⟨h1, by rw [h2, h1], by rw [hf2, hf]⟩

/-- C8 witness: two identical successful lookups at a concrete state and
payload render identically and fetch twice. -/
theorem C8_lookup_idempotent_witness :
    (lookupRun constLocale lookupHi
        (LookupOutcome.success recNoCurrencies)).resultsContainer
      = (renderOrderRecord constLocale recNoCurrencies).getD lookupConnectError ∧
    (lookupRun constLocale (lookupRun constLocale lookupHi
        (LookupOutcome.success recNoCurrencies))
        (LookupOutcome.success recNoCurrencies)).resultsContainer
      = (lookupRun constLocale lookupHi
          (LookupOutcome.success recNoCurrencies)).resultsContainer ∧
    (lookupRun constLocale (lookupRun constLocale lookupHi
        (LookupOutcome.success recNoCurrencies))
        (LookupOutcome.success recNoCurrencies)).fetchCount
      = lookupHi.fetchCount + 2 :=
  C8_lookup_idempotent constLocale lookupHi recNoCurrencies (by decide)

end BusinessSite
